/-
Verification of the match lifecycle coordinator
(src/backend/game/gameapp/match_objects/match.py).

The Match class is embedded shallowly: the mutable attributes of a Match
instance become the fields of MatchState, calls into the external
collaborators (socket gateway, ORM store, statistics service, waiting
timer, match runner) become entries appended to an effect trace, and each
event handler of the class becomes a function from states to results.
Python list indexing (including negative indices and IndexError) is
modelled by pyIndex and an explicit exception-carrying result type, so
that an uncaught exception inside a handler is visible as an exn outcome
that records the state at the moment the exception is raised.
-/
import Mathlib

set_option maxRecDepth 4000
set_option maxHeartbeats 1000000

/-- Stage enumeration, from class MatchStage in match.py. -/
inductive MatchStage where
  | NOT_STARTED
  | WAITING
  | MATCH
  | FINISHED
deriving DecidableEq, Repr

/-- Competitor entry as stored in Match.users: both RealUser and AiUser
carry an id, a transport session id and the is_ai discriminant. -/
structure MatchUser where
  id : Int
  sid : String
  is_ai : Bool
deriving DecidableEq, Repr

/-- Modelled from the spec: the AiUser identity constant AI_ID is imported
from the matchuser module, which is not under src/. Per spec section 3 the
AI competitor is a tagged variant with a fixed identity; the concrete
value is a sentinel and no claim depends on it. -/
def AI_ID : Int := -1

/-- Payload of the outbound statistics report built in Match.__set_win. -/
structure DashboardJson where
  player1_id : Int
  player1_score : Int
  player2_id : Int
  player2_score : Int
  winner_id : Int
  match_date : Int
  play_time : Int
deriving DecidableEq, Repr

/-- One observable side effect issued by a handler, in program order.
Each constructor corresponds to one call site in match.py into the
socket gateway, the ORM store, the statistics service, the waiting
timer or the match runner. -/
inductive Effect where
  | emitInit (paddleId : String) (sid : String)
  | emitGameOver (winner : String) (paddle1 : Int) (paddle2 : Int) (room : String)
  | enterRoom (sid : String) (room : String)
  | sioDisconnect (sid : String)
  | deleteRoomUser (userId : Int) (roomId : Int)
  | deleteRoomUserAllRooms (userId : Int)
  | deleteRoomByName (roomName : String)
  | postDashboard (j : DashboardJson)
  | logRespError
  | createNextMatchUser (userId : Int) (nextMatchId : Int)
  | matchDecidedNext (userId : Int) (nextMatchId : Int)
  | deleteMatchId (matchId : Int)
  | runnerStart
  | runnerStop
  | timerStart
  | timerStop
deriving DecidableEq, Repr

/-- State of one Match instance plus the read-only fields of its TempMatch
record and the trace of side effects issued so far. match_process holds
the current score pair of the match runner once started; timer_started
mirrors whether the waiting timer is armed. -/
structure MatchState where
  match_id : Int
  room_name : String
  match_room_id : Int
  match_room_room_name : String
  winner_match : Option Int
  start_at : Option Int
  is_with_ai : Bool
  stage : MatchStage
  users : List MatchUser
  online : List Bool
  match_process : Option (Int × Int)
  timer_started : Bool
  eff : List Effect
deriving DecidableEq, Repr

/-- External inputs consumed during one handler run: the wall clock read
by now() and whether the statistics POST returns a 2xx response. -/
structure Env where
  now : Int
  respOk : Bool
deriving DecidableEq, Repr

/-- Result of running one handler: ok carries the final state and the
Python return value (None is rendered as true); exn records that an
exception escaped, together with the state at the raise point. -/
inductive PyRes where
  | ok (s : MatchState) (ret : Bool)
  | exn (s : MatchState)
deriving DecidableEq, Repr

/-- State carried by a handler result, whether it returned or raised. -/
def outState : PyRes → MatchState
  | .ok s _ => s
  | .exn s => s

/-- True when the handler raised. -/
def isExn : PyRes → Bool
  | .ok _ _ => false
  | .exn _ => true

/-- Append one side effect to the trace. -/
def addEff (s : MatchState) (e : Effect) : MatchState :=
  { s with eff := s.eff ++ [e] }

/-- Python list subscript semantics: nonnegative indices from the front,
negative indices from the back, none when out of range (IndexError). -/
def pyIndex (l : List α) (i : Int) : Option α :=
  let j : Int := if i < 0 then i + l.length else i
  if 0 ≤ j then l[j.toNat]? else none

/-- Worker for Match.__get_user_idx: index of the first user whose id
matches, counting from k. -/
def getUserIdxGo : List MatchUser → Int → Int → Int
  | [], _, _ => -1
  | u :: rest, uid, k => if u.id = uid then k else getUserIdxGo rest uid (k + 1)

/-- Match.__get_user_idx: first index whose id equals uid, else -1. -/
def getUserIdx (users : List MatchUser) (uid : Int) : Int :=
  getUserIdxGo users uid 0

/-- Match.__set_stage_waiting: stage := WAITING and the waiting timer is
started. -/
def setStageWaiting (s : MatchState) : MatchState :=
  addEff { s with stage := MatchStage.WAITING, timer_started := true } Effect.timerStart

/-- Match.__set_stage_match: stage := MATCH and a MatchProcess is created
and started; its score pair begins at zero-zero. -/
def setStageMatch (s : MatchState) : MatchState :=
  addEff { s with stage := MatchStage.MATCH, match_process := some (0, 0) } Effect.runnerStart

/-- String constant for the seat-0 paddle. -/
def PADDLE1 : String := "paddle1"

/-- String constant for the seat-1 paddle. -/
def PADDLE2 : String := "paddle2"

/-- Match.__set_win, line by line: read the winner and (unused) loser
entries, read scores from the runner if one was started else zero-zero,
build the statistics payload, emit the game-over notification to the
room, POST the payload (a failed response only logs), then either
register the winner into the next match or delete the room records, drop
the match from the registry, and mark the stage FINISHED. -/
def setWin (env : Env) (w : Int) (s : MatchState) : PyRes :=
  match pyIndex s.users w with
  | none => PyRes.exn s
  | some winner =>
    match pyIndex s.users (1 - w) with
    | none => PyRes.exn s
    | some _ =>
      match pyIndex s.users 0, pyIndex s.users 1 with
      | some p1, some p2 =>
        let scores : Int × Int :=
          match s.match_process with
          | some sc => sc
          | none => (0, 0)
        let md : Int :=
          match s.start_at with
          | some t => t
          | none => env.now
        let pt : Int :=
          match s.start_at with
          | some t => env.now - t
          | none => 0
        let j : DashboardJson :=
          ⟨p1.id, scores.1, p2.id, scores.2, winner.id, md, pt⟩
        let wstr := if w = 0 then PADDLE1 else PADDLE2
        let s1 := addEff s (Effect.emitGameOver wstr scores.1 scores.2 s.room_name)
        let s2 := addEff s1 (Effect.postDashboard j)
        let s3 := if env.respOk then s2 else addEff s2 Effect.logRespError
        let s4 :=
          match s.winner_match with
          | some nm =>
            addEff (addEff s3 (Effect.createNextMatchUser winner.id nm))
              (Effect.matchDecidedNext winner.id nm)
          | none =>
            addEff (addEff s3 (Effect.deleteRoomUserAllRooms winner.id))
              (Effect.deleteRoomByName s.match_room_room_name)
        let s5 := addEff s4 (Effect.deleteMatchId s.match_id)
        PyRes.ok { s5 with stage := MatchStage.FINISHED } true
      | _, _ => PyRes.exn s

/-- Match.__set_lose: delete the room-membership row of users[loser_idx]
for this room and mark the stage FINISHED. -/
def setLose (l : Int) (s : MatchState) : PyRes :=
  match pyIndex s.users l with
  | none => PyRes.exn s
  | some loser =>
    PyRes.ok
      { addEff s (Effect.deleteRoomUser loser.id s.match_room_id) with
        stage := MatchStage.FINISHED } true

/-- Match.__set_win_and_lose: __set_win for the winner, __set_lose for
the opposite seat, then forcibly disconnect the transport session of the
loser. -/
def setWinAndLose (env : Env) (w : Int) (s : MatchState) : PyRes :=
  match setWin env w s with
  | .exn t => PyRes.exn t
  | .ok t _ =>
    match setLose (1 - w) t with
    | .exn t2 => PyRes.exn t2
    | .ok t2 _ =>
      match pyIndex t2.users (1 - w) with
      | none => PyRes.exn t2
      | some loser => PyRes.ok (addEff t2 (Effect.sioDisconnect loser.sid)) true

/-- Code of Match.user_decided that runs before acquiring self.lock:
there is none, the whole body is inside the with-block. -/
def userDecidedPre (_u : MatchUser) (s : MatchState) : MatchState := s

/-- Body of Match.user_decided under self.lock: reject when two seats are
already bound, otherwise append the competitor with presence false, and
when this fills the second seat while seat 0 is online move to WAITING. -/
def userDecidedLocked (u : MatchUser) (s : MatchState) : PyRes :=
  if 2 ≤ s.users.length then PyRes.ok s false
  else
    let s1 := { s with users := s.users ++ [u], online := s.online ++ [false] }
    if s1.users.length = 2 ∧ s1.online.getD 0 false = true then
      PyRes.ok (setStageWaiting s1) true
    else PyRes.ok s1 true

/-- Match.user_decided. -/
def userDecided (u : MatchUser) (s : MatchState) : PyRes :=
  userDecidedLocked u (userDecidedPre u s)

/-- Code of Match.user_connected before acquiring self.lock: a log call
only, no state access. -/
def userConnectedPre (_u : MatchUser) (s : MatchState) : MatchState := s

/-- Body of Match.user_connected under self.lock: unknown identity is a
logged failure; an already-online seat is a benign no-op; otherwise send
the paddle assignment, enter the room, store the competitor and mark the
seat online; then if the stage is FINISHED credit this seat as winner via
__set_win, else with both seats decided either (re)enter WAITING or stop
the timer and start the match. -/
def userConnectedLocked (env : Env) (u : MatchUser) (s : MatchState) : PyRes :=
  let idx := getUserIdx s.users u.id
  if idx = -1 then PyRes.ok s false
  else
    match pyIndex s.online idx with
    | none => PyRes.exn s
    | some true => PyRes.ok s true
    | some false =>
      let pad := if idx = 0 then PADDLE1 else PADDLE2
      let s1 := addEff s (Effect.emitInit pad u.sid)
      let s2 := addEff s1 (Effect.enterRoom u.sid s.room_name)
      let s3 := { s2 with users := s2.users.set idx.toNat u,
                          online := s2.online.set idx.toNat true }
      if s3.stage = MatchStage.FINISHED then
        match setWin env idx s3 with
        | .exn t => PyRes.exn t
        | .ok t _ => PyRes.ok t true
      else if s3.online.length = 2 then
        if s3.online.getD 0 false = false ∨ s3.online.getD 1 false = false then
          PyRes.ok (setStageWaiting s3) true
        else
          PyRes.ok (setStageMatch (addEff { s3 with timer_started := false } Effect.timerStop))
            true
      else PyRes.ok s3 true

/-- Match.user_connected. -/
def userConnected (env : Env) (u : MatchUser) (s : MatchState) : PyRes :=
  userConnectedLocked env u (userConnectedPre u s)

/-- Code of Match.ai_connected before acquiring self.lock: after logging
(and a length check that only logs), the AI competitor is appended to
users and online - a state write performed outside the guard. -/
def aiConnectedPre (sid : String) (s : MatchState) : MatchState :=
  { s with users := s.users ++ [⟨AI_ID, sid, true⟩], online := s.online ++ [true] }

/-- Body of Match.ai_connected under self.lock: send paddle2 assignment,
enter the room, stop the waiting timer, and start the match stage. -/
def aiConnectedLocked (sid : String) (s : MatchState) : PyRes :=
  let s1 := addEff s (Effect.emitInit PADDLE2 sid)
  let s2 := addEff s1 (Effect.enterRoom sid s.room_name)
  let s3 := addEff { s2 with timer_started := false } Effect.timerStop
  PyRes.ok (setStageMatch s3) true

/-- Match.ai_connected. -/
def aiConnected (sid : String) (s : MatchState) : PyRes :=
  aiConnectedLocked sid (aiConnectedPre sid s)

/-- Code of Match.timed_out before acquiring self.lock: a log call only. -/
def timedOutPre (s : MatchState) : MatchState := s

/-- Body of Match.timed_out under self.lock: no-op unless the stage is
WAITING; no-op when both seats are online; otherwise mark FINISHED and
run __set_win_and_lose with seat 0 as winner when seat 0 is online, else
seat 1. The second presence flag is only read when the first is true,
mirroring the short-circuit of the and-expression. -/
def timedOutLocked (env : Env) (s : MatchState) : PyRes :=
  if s.stage ≠ MatchStage.WAITING then PyRes.ok s true
  else
    match pyIndex s.online 0 with
    | none => PyRes.exn s
    | some o0 =>
      if o0 then
        match pyIndex s.online 1 with
        | none => PyRes.exn s
        | some true => PyRes.ok s true
        | some false => setWinAndLose env 0 { s with stage := MatchStage.FINISHED }
      else setWinAndLose env 1 { s with stage := MatchStage.FINISHED }

/-- Match.timed_out. -/
def timedOut (env : Env) (s : MatchState) : PyRes :=
  timedOutLocked env (timedOutPre s)

/-- Code of Match.user_disconnected before acquiring self.lock: none. -/
def userDisconnectedPre (_u : MatchUser) (s : MatchState) : MatchState := s

/-- Body of Match.user_disconnected under self.lock: no-op at NOT_STARTED
or FINISHED; at WAITING an unknown identity is a logged no-op and an
online seat stops the timer, marks FINISHED and runs __set_lose; at MATCH
the index is looked up without the -1 guard, the runner is stopped, the
stage marked FINISHED, then __set_lose on the looked-up index and
__set_win on its opposite. -/
def userDisconnectedLocked (env : Env) (u : MatchUser) (s : MatchState) : PyRes :=
  if s.stage = MatchStage.NOT_STARTED ∨ s.stage = MatchStage.FINISHED then PyRes.ok s true
  else if s.stage = MatchStage.WAITING then
    let idx := getUserIdx s.users u.id
    if idx = -1 then PyRes.ok s true
    else
      match pyIndex s.online idx with
      | none => PyRes.exn s
      | some false => PyRes.ok s true
      | some true =>
        let s1 := addEff { s with timer_started := false } Effect.timerStop
        let s2 := { s1 with stage := MatchStage.FINISHED }
        match setLose idx s2 with
        | .exn t => PyRes.exn t
        | .ok t _ => PyRes.ok t true
  else
    match s.match_process with
    | none => PyRes.exn s
    | some _ =>
      let idx := getUserIdx s.users u.id
      let s1 := addEff s Effect.runnerStop
      let s2 := { s1 with stage := MatchStage.FINISHED }
      match setLose idx s2 with
      | .exn t => PyRes.exn t
      | .ok t _ =>
        match setWin env (1 - idx) t with
        | .exn t2 => PyRes.exn t2
        | .ok t2 _ => PyRes.ok t2 true

/-- Match.user_disconnected. -/
def userDisconnected (env : Env) (u : MatchUser) (s : MatchState) : PyRes :=
  userDisconnectedLocked env u (userDisconnectedPre u s)

/-- Code of Match.alert_winner before acquiring self.lock: none. -/
def alertWinnerPre (_w : Int) (s : MatchState) : MatchState := s

/-- Body of Match.alert_winner under self.lock: no-op when already
FINISHED, else mark FINISHED and run __set_win_and_lose for the given
winner seat. -/
def alertWinnerLocked (env : Env) (w : Int) (s : MatchState) : PyRes :=
  if s.stage = MatchStage.FINISHED then PyRes.ok s true
  else setWinAndLose env w { s with stage := MatchStage.FINISHED }

/-- Match.alert_winner, the runner-concluded callback. -/
def alertWinner (env : Env) (w : Int) (s : MatchState) : PyRes :=
  alertWinnerLocked env w (alertWinnerPre w s)

/-- Modelled from the spec: the match runner (process module, not under
src/) updates its score pair while the game runs; spec section 4.3 only
exposes getScores as a pair of integers, so an external score change is
one event rewriting the pair. -/
def scoreUpdate (a b : Int) (s : MatchState) : MatchState :=
  match s.match_process with
  | some _ => { s with match_process := some (a, b) }
  | none => s

/-- The inbound events that drive one session, per spec section 4.1. -/
inductive Event where
  | decide (u : MatchUser)
  | connect (u : MatchUser)
  | aiJoin (sid : String)
  | disconnect (u : MatchUser)
  | timerFire
  | runnerConcluded (w : Int)
  | scoreSet (a b : Int)
deriving DecidableEq, Repr

/-- Dispatch one event to its handler. -/
def stepRes (env : Env) (e : Event) (s : MatchState) : PyRes :=
  match e with
  | .decide u => userDecided u s
  | .connect u => userConnected env u s
  | .aiJoin sid => aiConnected sid s
  | .disconnect u => userDisconnected env u s
  | .timerFire => timedOut env s
  | .runnerConcluded w => alertWinner env w s
  | .scoreSet a b => PyRes.ok (scoreUpdate a b s) true

/-- State after one event, whether the handler returned or raised: the
Match object survives an escaped exception with its mutations applied. -/
def stepState (env : Env) (e : Event) (s : MatchState) : MatchState :=
  outState (stepRes env e s)

/-- Which events the environment can deliver in a given state. decide,
connect and disconnect are untrusted inbound network events and are
always possible; timer fires are always possible because the handler
revalidates (spec section 4.2); an ai-join is only valid when exactly one
seat is occupied (spec section 4.1); the runner only signals or changes
scores once it has been started, with a seat index as winner (spec
section 4.3). -/
def admissibleB (s : MatchState) (e : Event) : Bool :=
  match e with
  | .decide u => !u.is_ai
  | .connect u => !u.is_ai
  | .aiJoin _ => s.users.length == 1
  | .disconnect _ => true
  | .timerFire => true
  | .runnerConcluded w => s.match_process.isSome && (w == 0 || w == 1)
  | .scoreSet _ _ => s.match_process.isSome

/-- Read-only fields of the backing TempMatch record. -/
structure MatchRec where
  match_id : Int
  room_name : String
  match_room_id : Int
  match_room_room_name : String
  winner_match : Option Int
  start_at : Option Int
deriving DecidableEq, Repr

/-- Match.__init__: fresh state for a TempMatch record. -/
def mkInit (r : MatchRec) (ai : Bool) : MatchState :=
  { match_id := r.match_id
    room_name := r.room_name
    match_room_id := r.match_room_id
    match_room_room_name := r.match_room_room_name
    winner_match := r.winner_match
    start_at := r.start_at
    is_with_ai := ai
    stage := MatchStage.NOT_STARTED
    users := []
    online := []
    match_process := none
    timer_started := false
    eff := [] }

/-- States reachable from some fresh Match by admissible events, under
arbitrary environments. -/
inductive Reach : MatchState → Prop
  | base (r : MatchRec) (ai : Bool) : Reach (mkInit r ai)
  | step {s : MatchState} (e : Event) (env : Env) :
      Reach s → admissibleB s e = true → Reach (stepState env e s)

/-- Run a sequence of events with their environments, failing on an
inadmissible event. -/
def runAdm : MatchState → List (Event × Env) → Option MatchState
  | s, [] => some s
  | s, (e, env) :: rest =>
    if admissibleB s e then runAdm (stepState env e s) rest else none

/-- Numeric order of the stages as declared in MatchStage. -/
def stageOrd : MatchStage → Nat
  | .NOT_STARTED => 0
  | .WAITING => 1
  | .MATCH => 2
  | .FINISHED => 3

/-- Transition relation spelled out by the claim on stage movement:
consecutive forward steps plus the two jumps to FINISHED it lists. -/
def allowedOrigMove : MatchStage → MatchStage → Bool
  | a, b =>
    (a == b) ||
    (a == MatchStage.NOT_STARTED && b == MatchStage.WAITING) ||
    (a == MatchStage.WAITING && b == MatchStage.MATCH) ||
    (a == MatchStage.MATCH && b == MatchStage.FINISHED) ||
    (a == MatchStage.NOT_STARTED && b == MatchStage.FINISHED) ||
    (a == MatchStage.WAITING && b == MatchStage.FINISHED)

/-- Effects of a list that are statistics reports, reduced to the winner
identity they carry, in order. -/
def postWins (l : List Effect) : List Int :=
  l.filterMap fun e =>
    match e with
    | .postDashboard j => some j.winner_id
    | _ => none

/-- Transport sessions forcibly disconnected in a trace, in order. -/
def discSids (l : List Effect) : List String :=
  l.filterMap fun e =>
    match e with
    | .sioDisconnect sid => some sid
    | _ => none

/-- Number of occurrences of one effect in a trace. -/
def countEff (x : Effect) (l : List Effect) : Nat :=
  (l.filter fun e => decide (e = x)).length

/-- Every effect except the log entry for a failed statistics response. -/
def notLog : Effect → Bool
  | .logRespError => false
  | _ => true

/-- Session id of competitor A in the concrete scenarios. -/
def sidA : String := "sa"

/-- Session id of competitor B in the concrete scenarios. -/
def sidB : String := "sb"

/-- Session id competitor B reconnects with after being dropped. -/
def sidB2 : String := "sb2"

/-- Session id of a competitor never decided into the session. -/
def sidC : String := "sc"

/-- Session id of the AI client. -/
def sidAi : String := "ai1"

/-- Socket room of the concrete session. -/
def roomA : String := "room10"

/-- Persisted room name of the concrete session. -/
def mroomA : String := "mroom10"

/-- Environment: clock at 160, statistics endpoint healthy. -/
def envT : Env := ⟨160, true⟩

/-- Competitor A. -/
def uA : MatchUser := ⟨1, sidA, false⟩

/-- Competitor B. -/
def uB : MatchUser := ⟨2, sidB, false⟩

/-- Competitor B on its second connection. -/
def uB2 : MatchUser := ⟨2, sidB2, false⟩

/-- A competitor unknown to the session. -/
def uC : MatchUser := ⟨3, sidC, false⟩

/-- A terminal bracket match record: no next match, started at 100. -/
def recNN : MatchRec := ⟨10, roomA, 77, mroomA, none, some 100⟩

/-- Events: both competitors decided, A connects, the waiting timer
fires (B forfeits), then B connects late on a fresh transport session. -/
def c1trace : List (Event × Env) :=
  [(Event.decide uA, envT), (Event.decide uB, envT), (Event.connect uA, envT),
   (Event.timerFire, envT), (Event.connect uB2, envT)]

/-- State right after the timer fired in the c1 scenario. -/
def c1mid : MatchState :=
  (runAdm (mkInit recNN false) (c1trace.take 4)).getD (mkInit recNN false)

/-- Final state of the c1 scenario. -/
def c1fin : MatchState :=
  (runAdm (mkInit recNN false) c1trace).getD (mkInit recNN false)

/-- State after one decide on a fresh session. -/
def c2s1 : MatchState := stepState envT (Event.decide uA) (mkInit recNN false)

/-- Events leading to a running match between A and B. -/
def cMatchTrace : List (Event × Env) :=
  [(Event.decide uA, envT), (Event.decide uB, envT), (Event.connect uA, envT),
   (Event.connect uB, envT)]

/-- A session in stage MATCH with A and B bound and online. -/
def c3pre : MatchState :=
  (runAdm (mkInit recNN false) cMatchTrace).getD (mkInit recNN false)

/-- Result of a disconnect carrying an unknown identity during MATCH. -/
def c3out : PyRes := userDisconnected envT uC c3pre

/-- Full game: both connect, the runner reaches 11 to 7, seat 0 wins. -/
def c5trace : List (Event × Env) :=
  cMatchTrace ++ [(Event.scoreSet 11 7, envT), (Event.runnerConcluded 0, envT)]

/-- Final state of the c5 scenario. -/
def c5fin : MatchState :=
  (runAdm (mkInit recNN false) c5trace).getD (mkInit recNN false)

/-- Events: both competitors decided, nobody connected yet. -/
def c7trace : List (Event × Env) :=
  [(Event.decide uA, envT), (Event.decide uB, envT)]

/-- A session with both seats bound, used for the seat-bound witness. -/
def c7s : MatchState :=
  (runAdm (mkInit recNN false) c7trace).getD (mkInit recNN false)

/-- A WAITING session with seat 0 online and seat 1 absent. -/
def c4ws : MatchState :=
  { mkInit recNN false with
    stage := MatchStage.WAITING
    users := [uA, uB]
    online := [true, false]
    timer_started := true }

/-- A WAITING session with neither seat online. -/
def c10ws : MatchState :=
  { mkInit recNN false with
    stage := MatchStage.WAITING
    users := [uA, uB]
    online := [false, false]
    timer_started := true }

/-- A FINISHED session in which neither competitor ever connected and no
runner was started. -/
def c6ws : MatchState :=
  { mkInit recNN false with
    stage := MatchStage.FINISHED
    users := [uA, uB]
    online := [false, false] }

/-- A session with both seats bound, for the report-failure witness. -/
def c8ws : MatchState := { mkInit recNN false with users := [uA, uB] }


theorem addEff_users (s : MatchState) (e : Effect) : (addEff s e).users = s.users := rfl

theorem addEff_online (s : MatchState) (e : Effect) : (addEff s e).online = s.online := rfl

theorem addEff_stage (s : MatchState) (e : Effect) : (addEff s e).stage = s.stage := rfl

theorem addEff_mp (s : MatchState) (e : Effect) :
    (addEff s e).match_process = s.match_process := rfl

theorem addEff_timer (s : MatchState) (e : Effect) :
    (addEff s e).timer_started = s.timer_started := rfl

/-- Fields of the state recorded by a raise inside __set_win: the raise
happens before any mutation, so the state is unchanged. -/
theorem setWin_exn_eq {env : Env} {w : Int} {s t : MatchState}
    (h : setWin env w s = PyRes.exn t) : t = s := by
  unfold setWin at h
  split at h
  · cases h; rfl
  · split at h
    · cases h; rfl
    · split at h
      · cases h
      · cases h; rfl

/-- Fields of the state returned by a successful __set_win: only the
effect trace grows and the stage becomes FINISHED. -/
theorem setWin_ok_core {env : Env} {w : Int} {s t : MatchState} {r : Bool}
    (h : setWin env w s = PyRes.ok t r) :
    t.users = s.users ∧ t.online = s.online ∧ t.match_process = s.match_process ∧
      t.timer_started = s.timer_started ∧ t.stage = MatchStage.FINISHED := by
  unfold setWin at h
  split at h
  · cases h
  · split at h
    · cases h
    · split at h
      · injection h with h1 _
        subst h1
        cases hro : env.respOk <;> cases hwm : s.winner_match <;>
          simp [addEff, hro, hwm]
      · cases h

/-- A raise inside __set_lose leaves the state unchanged. -/
theorem setLose_exn_eq {l : Int} {s t : MatchState}
    (h : setLose l s = PyRes.exn t) : t = s := by
  unfold setLose at h
  split at h
  · cases h; rfl
  · cases h

/-- A successful __set_lose grows the trace and sets FINISHED only. -/
theorem setLose_ok_core {l : Int} {s t : MatchState} {r : Bool}
    (h : setLose l s = PyRes.ok t r) :
    t.users = s.users ∧ t.online = s.online ∧ t.match_process = s.match_process ∧
      t.timer_started = s.timer_started ∧ t.stage = MatchStage.FINISHED := by
  unfold setLose at h
  split at h
  · cases h
  · injection h with h1 _
    subst h1
    simp [addEff]

/-- Whatever __set_win_and_lose does, users, online, runner and timer are
untouched and the stage either stays or becomes FINISHED. -/
theorem setWinAndLose_out (env : Env) (w : Int) (s : MatchState) :
    (outState (setWinAndLose env w s)).users = s.users ∧
      (outState (setWinAndLose env w s)).online = s.online ∧
      (outState (setWinAndLose env w s)).match_process = s.match_process ∧
      (outState (setWinAndLose env w s)).timer_started = s.timer_started ∧
      ((outState (setWinAndLose env w s)).stage = s.stage ∨
        (outState (setWinAndLose env w s)).stage = MatchStage.FINISHED) := by
  unfold setWinAndLose
  split
  · next t heq =>
    have := setWin_exn_eq heq
    subst this
    simp [outState]
  · next t r1 heq =>
    obtain ⟨w1, w2, w3, w4, w5⟩ := setWin_ok_core heq
    split
    · next t2 heq2 =>
      have := setLose_exn_eq heq2
      subst this
      simp_all [outState]
    · next t2 r2 heq2 =>
      obtain ⟨l1, l2, l3, l4, l5⟩ := setLose_ok_core heq2
      split <;> simp_all [outState, addEff]

/-- A successful __set_win_and_lose additionally guarantees FINISHED. -/
theorem setWinAndLose_ok_core {env : Env} {w : Int} {s t : MatchState} {r : Bool}
    (h : setWinAndLose env w s = PyRes.ok t r) :
    t.users = s.users ∧ t.online = s.online ∧ t.match_process = s.match_process ∧
      t.timer_started = s.timer_started ∧ t.stage = MatchStage.FINISHED := by
  unfold setWinAndLose at h
  split at h
  · cases h
  · next t1 r1 heq =>
    obtain ⟨w1, w2, w3, w4, w5⟩ := setWin_ok_core heq
    split at h
    · cases h
    · next t2 r2 heq2 =>
      obtain ⟨l1, l2, l3, l4, l5⟩ := setLose_ok_core heq2
      split at h
      · cases h
      · cases h
        simp_all [addEff]

theorem pyIndex_nonneg {l : List α} {i : Int} (h : 0 ≤ i) :
    pyIndex l i = l[i.toNat]? := by
  unfold pyIndex
  simp [Int.not_lt.mpr h, h]

theorem pyIndex_some_lt {l : List α} {i : Int} {a : α} (h0 : 0 ≤ i)
    (h : pyIndex l i = some a) : i.toNat < l.length := by
  rw [pyIndex_nonneg h0] at h
  by_contra hle
  rw [List.getElem?_eq_none (Nat.le_of_not_lt hle)] at h
  cases h

theorem getUserIdxGo_cases (l : List MatchUser) (uid : Int) :
    ∀ k : Int, getUserIdxGo l uid k = -1 ∨ k ≤ getUserIdxGo l uid k := by
  induction l with
  | nil => intro k; left; rfl
  | cons u rest ih =>
    intro k
    unfold getUserIdxGo
    by_cases hid : u.id = uid
    · simp [hid]
    · simp only [hid, if_false]
      rcases ih (k + 1) with h | h
      · left; exact h
      · right; omega

theorem getUserIdx_cases (l : List MatchUser) (uid : Int) :
    getUserIdx l uid = -1 ∨ 0 ≤ getUserIdx l uid :=
  getUserIdxGo_cases l uid 0

/-- Inductive invariant of a session state: users and online have equal
length, never more than two entries, two exactly once past NOT_STARTED,
seat 1 is online during MATCH, and the runner exists exactly from the
MATCH transition on. -/
def MatchInv (s : MatchState) : Prop :=
  s.users.length = s.online.length ∧
  s.users.length ≤ 2 ∧
  (s.stage = MatchStage.WAITING → s.users.length = 2) ∧
  (s.stage = MatchStage.MATCH → s.users.length = 2) ∧
  (s.stage = MatchStage.FINISHED → s.users.length = 2) ∧
  (s.stage = MatchStage.MATCH → s.online.getD 1 false = true) ∧
  (s.match_process.isSome = true → s.stage = MatchStage.MATCH ∨ s.stage = MatchStage.FINISHED) ∧
  (s.stage = MatchStage.MATCH → s.match_process.isSome = true)

/-- Stage names are distinct, spelled for simp side conditions. -/
theorem matchInv_init (r : MatchRec) (ai : Bool) : MatchInv (mkInit r ai) := by
  refine ⟨rfl, by simp [mkInit], ?_, ?_, ?_, ?_, ?_, ?_⟩ <;> simp [mkInit]

theorem inv_mono_decide (u : MatchUser) (s : MatchState) (h : MatchInv s) :
    MatchInv (outState (userDecided u s)) ∧
      stageOrd s.stage ≤ stageOrd (outState (userDecided u s)).stage := by
  obtain ⟨h1, h2, h3, h4, h5, h6, h7, h8⟩ := h
  unfold userDecided userDecidedPre userDecidedLocked
  split
  · exact ⟨⟨h1, h2, h3, h4, h5, h6, h7, h8⟩, le_refl _⟩
  · next hlen =>
    have hlt : s.users.length ≤ 1 := by omega
    have hstage : s.stage = MatchStage.NOT_STARTED := by
      cases hs : s.stage
      · rfl
      · exact absurd (h3 hs) (by omega)
      · exact absurd (h4 hs) (by omega)
      · exact absurd (h5 hs) (by omega)
    have hmp : s.match_process = none := by
      cases hmp : s.match_process with
      | none => rfl
      | some sc =>
        rcases h7 (by simp [hmp]) with hx | hx <;> rw [hstage] at hx <;> cases hx
    dsimp only
    split
    · next hc =>
      obtain ⟨hc1, _⟩ := hc
      refine ⟨⟨?_, ?_, ?_, ?_, ?_, ?_, ?_, ?_⟩, ?_⟩ <;>
        simp_all [setStageWaiting, addEff, outState, stageOrd, hstage] <;> omega
    · refine ⟨⟨?_, ?_, ?_, ?_, ?_, ?_, ?_, ?_⟩, ?_⟩ <;>
        simp_all [outState, stageOrd, hstage] <;> omega

theorem inv_mono_connect (env : Env) (u : MatchUser) (s : MatchState) (h : MatchInv s) :
    MatchInv (outState (userConnected env u s)) ∧
      stageOrd s.stage ≤ stageOrd (outState (userConnected env u s)).stage := by
  obtain ⟨h1, h2, h3, h4, h5, h6, h7, h8⟩ := h
  unfold userConnected userConnectedPre userConnectedLocked
  dsimp only [addEff]
  split
  · exact ⟨⟨h1, h2, h3, h4, h5, h6, h7, h8⟩, le_refl _⟩
  · next hidx =>
    have hnn : 0 ≤ getUserIdx s.users u.id := (getUserIdx_cases _ _).resolve_left hidx
    split
    · exact ⟨⟨h1, h2, h3, h4, h5, h6, h7, h8⟩, le_refl _⟩
    · exact ⟨⟨h1, h2, h3, h4, h5, h6, h7, h8⟩, le_refl _⟩
    · next heq =>
      have hlt : (getUserIdx s.users u.id).toNat < s.online.length := pyIndex_some_lt hnn heq
      split
      · next hfin =>
        split
        · next t heqw =>
          have := setWin_exn_eq heqw
          subst this
          refine ⟨⟨?_, ?_, ?_, ?_, ?_, ?_, ?_, ?_⟩, ?_⟩ <;>
            simp_all [outState, stageOrd] <;> omega
        · next t r heqw =>
          obtain ⟨c1, c2, c3, c4, c5⟩ := setWin_ok_core heqw
          refine ⟨⟨?_, ?_, ?_, ?_, ?_, ?_, ?_, ?_⟩, ?_⟩ <;>
            simp_all [outState, stageOrd] <;> omega
      · next hnfin =>
        split
        · next hlen2 =>
          have hol2 : s.online.length = 2 := by
            simpa using hlen2
          have hul2 : s.users.length = 2 := by omega
          obtain ⟨o0, o1, ho⟩ := List.length_eq_two.mp hol2
          have hidxn : (getUserIdx s.users u.id).toNat = 0 ∨
              (getUserIdx s.users u.id).toNat = 1 := by omega
          split
          · next hoff =>
            have hnotmatch : s.stage ≠ MatchStage.MATCH := by
              intro hm
              have hguard := h6 hm
              rcases hidxn with h0 | h0 <;>
                rw [pyIndex_nonneg hnn, h0, ho] at heq <;>
                rw [h0, ho] at hoff <;>
                simp_all [List.getD]
            refine ⟨⟨?_, ?_, ?_, ?_, ?_, ?_, ?_, ?_⟩, ?_⟩ <;>
              simp_all [setStageWaiting, addEff, outState] <;>
              first
              | omega
              | (rcases hst : s.stage <;> simp_all [stageOrd] <;> omega)
          · next hon =>
            have hgd : (s.online.set (getUserIdx s.users u.id).toNat true).getD 0 false = true ∧
                (s.online.set (getUserIdx s.users u.id).toNat true).getD 1 false = true := by
              constructor <;>
                rcases hx : (s.online.set (getUserIdx s.users u.id).toNat true).getD 0 false <;>
                rcases hy : (s.online.set (getUserIdx s.users u.id).toNat true).getD 1 false <;>
                simp_all
            refine ⟨⟨?_, ?_, ?_, ?_, ?_, ?_, ?_, ?_⟩, ?_⟩ <;>
              simp_all [setStageMatch, addEff, outState] <;>
              first
              | omega
              | (rcases hst : s.stage <;> simp_all [stageOrd] <;> omega)
        · next hlen2 =>
          have hwm : s.stage ≠ MatchStage.WAITING ∧ s.stage ≠ MatchStage.MATCH := by
            constructor <;> intro hx
            · exact hlen2 (by rw [List.length_set]; have := h3 hx; omega)
            · exact hlen2 (by rw [List.length_set]; have := h4 hx; omega)
          refine ⟨⟨?_, ?_, ?_, ?_, ?_, ?_, ?_, ?_⟩, ?_⟩ <;>
            simp_all [outState, stageOrd] <;> omega

theorem inv_mono_aiJoin (sid : String) (s : MatchState) (h : MatchInv s)
    (hl : s.users.length = 1) :
    MatchInv (outState (aiConnected sid s)) ∧
      stageOrd s.stage ≤ stageOrd (outState (aiConnected sid s)).stage := by
  obtain ⟨h1, h2, h3, h4, h5, h6, h7, h8⟩ := h
  have hstage : s.stage = MatchStage.NOT_STARTED := by
    cases hs : s.stage
    · rfl
    · exact absurd (h3 hs) (by omega)
    · exact absurd (h4 hs) (by omega)
    · exact absurd (h5 hs) (by omega)
  obtain ⟨b, hb⟩ := List.length_eq_one.mp (h1 ▸ hl)
  unfold aiConnected aiConnectedPre aiConnectedLocked setStageMatch
  refine ⟨⟨?_, ?_, ?_, ?_, ?_, ?_, ?_, ?_⟩, ?_⟩ <;>
    simp_all [addEff, outState, stageOrd, List.getD]

theorem inv_mono_timedOut (env : Env) (s : MatchState) (h : MatchInv s) :
    MatchInv (outState (timedOut env s)) ∧
      stageOrd s.stage ≤ stageOrd (outState (timedOut env s)).stage := by
  obtain ⟨h1, h2, h3, h4, h5, h6, h7, h8⟩ := h
  unfold timedOut timedOutPre timedOutLocked
  split
  · exact ⟨⟨h1, h2, h3, h4, h5, h6, h7, h8⟩, le_refl _⟩
  · next hW =>
    have hstageW : s.stage = MatchStage.WAITING := not_not.mp hW
    split
    · exact ⟨⟨h1, h2, h3, h4, h5, h6, h7, h8⟩, le_refl _⟩
    · next o0 heq0 =>
      split
      · split
        · exact ⟨⟨h1, h2, h3, h4, h5, h6, h7, h8⟩, le_refl _⟩
        · exact ⟨⟨h1, h2, h3, h4, h5, h6, h7, h8⟩, le_refl _⟩
        · obtain ⟨a1, a2, a3, a4, a5⟩ :=
            setWinAndLose_out env 0 { s with stage := MatchStage.FINISHED }
          have a5f : (outState (setWinAndLose env 0
              { s with stage := MatchStage.FINISHED })).stage = MatchStage.FINISHED := by
            rcases a5 with a5 | a5 <;> simpa using a5
          refine ⟨⟨?_, ?_, ?_, ?_, ?_, ?_, ?_, ?_⟩, ?_⟩ <;>
            simp_all [stageOrd, hstageW] <;> omega
      · obtain ⟨a1, a2, a3, a4, a5⟩ :=
          setWinAndLose_out env 1 { s with stage := MatchStage.FINISHED }
        have a5f : (outState (setWinAndLose env 1
            { s with stage := MatchStage.FINISHED })).stage = MatchStage.FINISHED := by
          rcases a5 with a5 | a5 <;> simpa using a5
        refine ⟨⟨?_, ?_, ?_, ?_, ?_, ?_, ?_, ?_⟩, ?_⟩ <;>
          simp_all [stageOrd, hstageW] <;> omega

theorem inv_mono_disconnect (env : Env) (u : MatchUser) (s : MatchState) (h : MatchInv s) :
    MatchInv (outState (userDisconnected env u s)) ∧
      stageOrd s.stage ≤ stageOrd (outState (userDisconnected env u s)).stage := by
  obtain ⟨h1, h2, h3, h4, h5, h6, h7, h8⟩ := h
  unfold userDisconnected userDisconnectedPre userDisconnectedLocked
  dsimp only [addEff]
  split
  · exact ⟨⟨h1, h2, h3, h4, h5, h6, h7, h8⟩, le_refl _⟩
  · next hnsf =>
    split
    · next hstageW =>
      split
      · exact ⟨⟨h1, h2, h3, h4, h5, h6, h7, h8⟩, le_refl _⟩
      · split
        · exact ⟨⟨h1, h2, h3, h4, h5, h6, h7, h8⟩, le_refl _⟩
        · exact ⟨⟨h1, h2, h3, h4, h5, h6, h7, h8⟩, le_refl _⟩
        · split
          · next t heql =>
            have := setLose_exn_eq heql
            subst this
            refine ⟨⟨?_, ?_, ?_, ?_, ?_, ?_, ?_, ?_⟩, ?_⟩ <;>
              simp_all [outState, stageOrd] <;> omega
          · next t r heql =>
            obtain ⟨l1, l2, l3, l4, l5⟩ := setLose_ok_core heql
            refine ⟨⟨?_, ?_, ?_, ?_, ?_, ?_, ?_, ?_⟩, ?_⟩ <;>
              simp_all [outState, stageOrd] <;> omega
    · next hnW =>
      have hstageM : s.stage = MatchStage.MATCH := by
        cases hs : s.stage <;> simp_all
      split
      · next heqmp =>
        exact absurd (h8 hstageM) (by simp [heqmp])
      · next sc heqmp =>
        split
        · next t heql =>
          have := setLose_exn_eq heql
          subst this
          refine ⟨⟨?_, ?_, ?_, ?_, ?_, ?_, ?_, ?_⟩, ?_⟩ <;>
            simp_all [outState, stageOrd] <;> omega
        · next t r heql =>
          obtain ⟨l1, l2, l3, l4, l5⟩ := setLose_ok_core heql
          split
          · next t2 heqw =>
            have := setWin_exn_eq heqw
            subst this
            refine ⟨⟨?_, ?_, ?_, ?_, ?_, ?_, ?_, ?_⟩, ?_⟩ <;>
              simp_all [outState, stageOrd] <;> omega
          · next t2 r2 heqw =>
            obtain ⟨c1, c2, c3, c4, c5⟩ := setWin_ok_core heqw
            refine ⟨⟨?_, ?_, ?_, ?_, ?_, ?_, ?_, ?_⟩, ?_⟩ <;>
              simp_all [outState, stageOrd] <;> omega

theorem inv_mono_alertWinner (env : Env) (w : Int) (s : MatchState) (h : MatchInv s)
    (hmp : s.match_process.isSome = true) :
    MatchInv (outState (alertWinner env w s)) ∧
      stageOrd s.stage ≤ stageOrd (outState (alertWinner env w s)).stage := by
  obtain ⟨h1, h2, h3, h4, h5, h6, h7, h8⟩ := h
  unfold alertWinner alertWinnerPre alertWinnerLocked
  split
  · exact ⟨⟨h1, h2, h3, h4, h5, h6, h7, h8⟩, le_refl _⟩
  · next hnf =>
    have hstageM : s.stage = MatchStage.MATCH := by
      rcases h7 hmp with hx | hx
      · exact hx
      · exact absurd hx hnf
    obtain ⟨a1, a2, a3, a4, a5⟩ :=
      setWinAndLose_out env w { s with stage := MatchStage.FINISHED }
    have a5f : (outState (setWinAndLose env w
        { s with stage := MatchStage.FINISHED })).stage = MatchStage.FINISHED := by
      rcases a5 with a5 | a5 <;> simpa using a5
    refine ⟨⟨?_, ?_, ?_, ?_, ?_, ?_, ?_, ?_⟩, ?_⟩ <;>
      simp_all [stageOrd, hstageM] <;> omega

theorem inv_mono_scoreSet (a b : Int) (s : MatchState) (h : MatchInv s) :
    MatchInv (scoreUpdate a b s) ∧
      stageOrd s.stage ≤ stageOrd (scoreUpdate a b s).stage := by
  obtain ⟨h1, h2, h3, h4, h5, h6, h7, h8⟩ := h
  unfold scoreUpdate
  split
  · next sc heq =>
    refine ⟨⟨?_, ?_, ?_, ?_, ?_, ?_, ?_, ?_⟩, ?_⟩ <;> simp_all
  · exact ⟨⟨h1, h2, h3, h4, h5, h6, h7, h8⟩, le_refl _⟩

/-- One admissible event preserves the session invariant and never
decreases the stage. -/
theorem inv_mono_step (s : MatchState) (e : Event) (env : Env) (h : MatchInv s)
    (ha : admissibleB s e = true) :
    MatchInv (stepState env e s) ∧
      stageOrd s.stage ≤ stageOrd (stepState env e s).stage := by
  cases e with
  | decide u => exact inv_mono_decide u s h
  | connect u => exact inv_mono_connect env u s h
  | aiJoin sid =>
    exact inv_mono_aiJoin sid s h (by simpa [admissibleB] using ha)
  | disconnect u => exact inv_mono_disconnect env u s h
  | timerFire => exact inv_mono_timedOut env s h
  | runnerConcluded w =>
    refine inv_mono_alertWinner env w s h ?_
    simp only [admissibleB, Bool.and_eq_true] at ha
    exact ha.1
  | scoreSet a b => exact inv_mono_scoreSet a b s h

/-- Every reachable session state satisfies the invariant. -/
theorem reach_inv {s : MatchState} (h : Reach s) : MatchInv s := by
  induction h with
  | base r ai => exact matchInv_init r ai
  | step e env hr ha ih => exact (inv_mono_step _ e env ih ha).1

/-- A successful admissible run starting from a reachable state ends in a
reachable state. -/
theorem runAdm_reach : ∀ (tr : List (Event × Env)) (s t : MatchState),
    Reach s → runAdm s tr = some t → Reach t := by
  intro tr
  induction tr with
  | nil =>
    intro s t hr h
    unfold runAdm at h
    injection h with h
    exact h ▸ hr
  | cons p rest ih =>
    intro s t hr h
    unfold runAdm at h
    split at h
    · next ha => exact ih _ _ (Reach.step p.1 p.2 hr ha) h
    · cases h

/-- C2, as the claim states it: the counterexample run. A session with one
decided competitor is still NOT_STARTED; an admissible ai-join then moves
it straight to MATCH, a transition absent from the list of moves the claim
allows (consecutive steps plus jumps to FINISHED). -/
theorem C2_counterexample :
    admissibleB (mkInit recNN false) (Event.decide uA) = true ∧
      c2s1.stage = MatchStage.NOT_STARTED ∧
      admissibleB c2s1 (Event.aiJoin sidAi) = true ∧
      (stepState envT (Event.aiJoin sidAi) c2s1).stage = MatchStage.MATCH ∧
      allowedOrigMove MatchStage.NOT_STARTED MatchStage.MATCH = false := by
  decide

/-- C2 (amended): over every reachable state and admissible event, the
stage ordinal never decreases - the moves are those the claim lists plus
the direct NOT_STARTED to MATCH jump taken by ai-join - and FINISHED is
terminal. -/
theorem C2_stage_forward (s : MatchState) (e : Event) (env : Env) (hr : Reach s)
    (ha : admissibleB s e = true) :
    stageOrd s.stage ≤ stageOrd (stepState env e s).stage ∧
      (s.stage = MatchStage.FINISHED →
        (stepState env e s).stage = MatchStage.FINISHED) := by
  have h := inv_mono_step s e env (reach_inv hr) ha
  refine ⟨h.2, fun hf => ?_⟩
  have h2 := h.2
  rw [hf] at h2
  cases hx : (stepState env e s).stage <;> rw [hx] at h2
  · exact absurd h2 (by decide)
  · exact absurd h2 (by decide)
  · exact absurd h2 (by decide)

/-- C2 witness: the amended statement applied to the fresh session and a
decide event. -/
theorem C2_stage_forward_witness :
    stageOrd (mkInit recNN false).stage ≤
      stageOrd (stepState envT (Event.decide uA) (mkInit recNN false)).stage ∧
      ((mkInit recNN false).stage = MatchStage.FINISHED →
        (stepState envT (Event.decide uA) (mkInit recNN false)).stage =
          MatchStage.FINISHED) :=
  C2_stage_forward (mkInit recNN false) (Event.decide uA) envT
    (Reach.base recNN false) (by decide)

/-- C7: in every reachable state at most two seats are occupied, and a
decide on a session with two bound seats reports failure and leaves the
state - users, online flags, stage, timer and trace - untouched. -/
theorem C7_seat_bound :
    (∀ s : MatchState, Reach s → s.users.length ≤ 2) ∧
      (∀ (u : MatchUser) (s : MatchState), 2 ≤ s.users.length →
        userDecided u s = PyRes.ok s false) := by
  constructor
  · intro s hr
    exact (reach_inv hr).2.1
  · intro u s h
    unfold userDecided userDecidedPre userDecidedLocked
    simp [h]

/-- C7 witness: the bound at the concrete two-seat session reached by two
decides, and the rejected third decide there. -/
theorem C7_seat_bound_witness :
    c7s.users.length ≤ 2 ∧ userDecided uC c7s = PyRes.ok c7s false :=
  ⟨C7_seat_bound.1 c7s
      (runAdm_reach c7trace (mkInit recNN false) c7s
        (Reach.base recNN false) (by decide)),
    C7_seat_bound.2 uC c7s (by decide)⟩

/-- C9, as the claim states it: the counterexample. The seat-binding
writes of ai-join run in its pre-lock phase, so the phase is not the
identity on the state - the handler mutates users and online before
acquiring the session guard. -/
theorem C9_counterexample :
    aiConnectedPre sidAi (mkInit recNN false) ≠ mkInit recNN false := by
  decide

/-- C9 (amended): the other five handlers perform no state access before
acquiring the session guard - their pre-lock phases are the identity -
while ai-join appends the AI competitor to users and online outside it. -/
theorem C9_guard_coverage :
    (∀ (u : MatchUser) (s : MatchState), userDecidedPre u s = s) ∧
      (∀ (u : MatchUser) (s : MatchState), userConnectedPre u s = s) ∧
      (∀ (u : MatchUser) (s : MatchState), userDisconnectedPre u s = s) ∧
      (∀ s : MatchState, timedOutPre s = s) ∧
      (∀ (w : Int) (s : MatchState), alertWinnerPre w s = s) ∧
      (∀ (sid : String) (s : MatchState), aiConnectedPre sid s =
        { s with users := s.users ++ [⟨AI_ID, sid, true⟩]
                 online := s.online ++ [true] }) :=
  ⟨fun _ _ => rfl, fun _ _ => rfl, fun _ _ => rfl, fun _ => rfl,
    fun _ _ => rfl, fun _ _ => rfl⟩

/-- C1: double resolution at the failing input. After decide-decide-
connect the timer fires and resolves seat 0 as winner (stage FINISHED,
one statistics report crediting competitor 1); competitor 2 then connects
late on a fresh transport session and __set_win runs again for seat 1,
so the finished session reports a second winner, emits a second game-over
and deletes the room records a second time. -/
theorem C1_double_resolution :
    (runAdm (mkInit recNN false) c1trace).isSome = true ∧
      c1mid.stage = MatchStage.FINISHED ∧
      postWins c1mid.eff = [1] ∧
      countEff (Effect.deleteRoomByName mroomA) c1mid.eff = 1 ∧
      c1fin.stage = MatchStage.FINISHED ∧
      postWins c1fin.eff = [1, 2] ∧
      countEff (Effect.deleteRoomByName mroomA) c1fin.eff = 2 ∧
      countEff (Effect.emitGameOver PADDLE1 0 0 roomA) c1fin.eff = 1 ∧
      countEff (Effect.emitGameOver PADDLE2 0 0 roomA) c1fin.eff = 1 := by
  decide

/-- C3: a disconnect carrying an identity never decided into the session,
arriving while the stage is MATCH, is not a no-op: the handler stops the
runner, marks the stage FINISHED, deletes the room membership of seat 1
(Python index -1), and then raises an uncaught IndexError at users[2]. -/
theorem C3_unknown_disconnect_crash :
    c3pre.stage = MatchStage.MATCH ∧
      getUserIdx c3pre.users uC.id = -1 ∧
      isExn c3out = true ∧
      (outState c3out).stage = MatchStage.FINISHED ∧
      countEff Effect.runnerStop c3pre.eff = 0 ∧
      countEff Effect.runnerStop (outState c3out).eff = 1 ∧
      countEff (Effect.deleteRoomUser 2 77) c3pre.eff = 0 ∧
      countEff (Effect.deleteRoomUser 2 77) (outState c3out).eff = 1 := by
  decide

/-- C5: in the full concrete game (seat 0 wins 11 to 7, no next match)
resolve-winner persists the result, emits the match-concluded payload and
deletes the bracket room, but never disconnects the transport session of
the winner: the only forcible disconnect in the whole trace is the one of
the loser. -/
theorem C5_winner_not_disconnected :
    (runAdm (mkInit recNN false) c5trace).isSome = true ∧
      c5fin.stage = MatchStage.FINISHED ∧
      Effect.postDashboard ⟨1, 11, 2, 7, 1, 100, 60⟩ ∈ c5fin.eff ∧
      Effect.emitGameOver PADDLE1 11 7 roomA ∈ c5fin.eff ∧
      Effect.deleteRoomByName mroomA ∈ c5fin.eff ∧
      discSids c5fin.eff = [sidB] := by
  decide

/-- C4: the waiting-timer fire handler. Outside stage WAITING, or with
both seats online, it returns with the state untouched. At WAITING with
only seat 0 online it marks the session FINISHED, reports seat 0 as the
winner, deletes seat 1 from the room membership, and forcibly disconnects
the transport session of seat 1 but never that of seat 0. -/
theorem C4_timer_fire :
    (∀ (env : Env) (s : MatchState), s.stage ≠ MatchStage.WAITING →
      timedOut env s = PyRes.ok s true) ∧
      (∀ (env : Env) (s : MatchState), pyIndex s.online 0 = some true →
        pyIndex s.online 1 = some true → timedOut env s = PyRes.ok s true) ∧
      (∀ (env : Env) (s : MatchState) (u0 u1 : MatchUser),
        s.stage = MatchStage.WAITING → s.users = [u0, u1] →
        s.online = [true, false] → u0.sid ≠ u1.sid →
        isExn (timedOut env s) = false ∧
        (outState (timedOut env s)).stage = MatchStage.FINISHED ∧
        postWins ((outState (timedOut env s)).eff.drop s.eff.length) = [u0.id] ∧
        Effect.sioDisconnect u1.sid ∈ (outState (timedOut env s)).eff.drop s.eff.length ∧
        Effect.deleteRoomUser u1.id s.match_room_id ∈
          (outState (timedOut env s)).eff.drop s.eff.length ∧
        Effect.sioDisconnect u0.sid ∉
          (outState (timedOut env s)).eff.drop s.eff.length) := by
  refine ⟨?_, ?_, ?_⟩
  · intro env s hs
    unfold timedOut timedOutPre timedOutLocked
    simp [hs]
  · intro env s h0 h1
    unfold timedOut timedOutPre timedOutLocked
    split
    · rfl
    · simp [h0, h1]
  · intro env s u0 u1 hst hus hon hsid
    obtain ⟨mid, rn, mri, mrn, wm, sa, ai, st, us, ol, mp, ts, ef⟩ := s
    dsimp only at hst hus hon
    subst hst hus hon
    rcases wm with _ | nm <;> rcases mp with _ | sc <;> rcases sa with _ | t0 <;>
      cases hro : env.respOk <;>
      simp [timedOut, timedOutPre, timedOutLocked, setWinAndLose, setWin, setLose,
        pyIndex, addEff, outState, isExn, postWins, hro, List.drop_left,
        hsid, Ne.symm hsid]

/-- C4 witness: the no-op on a NOT_STARTED session and the full seat-0
forfeit resolution at the concrete WAITING state with seat 1 absent. -/
theorem C4_timer_fire_witness :
    timedOut envT (mkInit recNN false) = PyRes.ok (mkInit recNN false) true ∧
      (isExn (timedOut envT c4ws) = false ∧
        (outState (timedOut envT c4ws)).stage = MatchStage.FINISHED ∧
        postWins ((outState (timedOut envT c4ws)).eff.drop c4ws.eff.length) = [uA.id] ∧
        Effect.sioDisconnect uB.sid ∈
          (outState (timedOut envT c4ws)).eff.drop c4ws.eff.length ∧
        Effect.deleteRoomUser uB.id c4ws.match_room_id ∈
          (outState (timedOut envT c4ws)).eff.drop c4ws.eff.length ∧
        Effect.sioDisconnect uA.sid ∉
          (outState (timedOut envT c4ws)).eff.drop c4ws.eff.length) :=
  ⟨C4_timer_fire.1 envT (mkInit recNN false) (by decide),
    C4_timer_fire.2.2 envT c4ws uA uB (by decide) (by decide) (by decide) (by decide)⟩

/-- C10: when the timer fires at WAITING and the seats are not both
online, the winner is seat 0 exactly when seat 0 is online and seat 1
otherwise; the opposite seat is deleted from the room membership and has
its transport session forcibly disconnected - with neither seat online
this makes seat 1 the winner and disconnects seat 0. -/
theorem C10_timer_winner_choice :
    ∀ (env : Env) (s : MatchState) (u0 u1 : MatchUser) (o0 o1 : Bool),
      s.stage = MatchStage.WAITING → s.users = [u0, u1] → s.online = [o0, o1] →
      ¬(o0 = true ∧ o1 = true) →
      isExn (timedOut env s) = false ∧
        (outState (timedOut env s)).stage = MatchStage.FINISHED ∧
        postWins ((outState (timedOut env s)).eff.drop s.eff.length) =
          [(if o0 then u0 else u1).id] ∧
        Effect.sioDisconnect (if o0 then u1 else u0).sid ∈
          (outState (timedOut env s)).eff.drop s.eff.length ∧
        Effect.deleteRoomUser (if o0 then u1 else u0).id s.match_room_id ∈
          (outState (timedOut env s)).eff.drop s.eff.length := by
  intro env s u0 u1 o0 o1 hst hus hon hno
  obtain ⟨mid, rn, mri, mrn, wm, sa, ai, st, us, ol, mp, ts, ef⟩ := s
  dsimp only at hst hus hon
  subst hst hus hon
  cases o0 <;> cases o1
  · rcases wm with _ | nm <;> rcases mp with _ | sc <;> rcases sa with _ | t0 <;>
      cases hro : env.respOk <;>
      simp [timedOut, timedOutPre, timedOutLocked, setWinAndLose, setWin, setLose,
        pyIndex, addEff, outState, isExn, postWins, hro, List.drop_left]
  · rcases wm with _ | nm <;> rcases mp with _ | sc <;> rcases sa with _ | t0 <;>
      cases hro : env.respOk <;>
      simp [timedOut, timedOutPre, timedOutLocked, setWinAndLose, setWin, setLose,
        pyIndex, addEff, outState, isExn, postWins, hro, List.drop_left]
  · rcases wm with _ | nm <;> rcases mp with _ | sc <;> rcases sa with _ | t0 <;>
      cases hro : env.respOk <;>
      simp [timedOut, timedOutPre, timedOutLocked, setWinAndLose, setWin, setLose,
        pyIndex, addEff, outState, isExn, postWins, hro, List.drop_left]
  · exact absurd ⟨rfl, rfl⟩ hno

/-- C10 witness: the neither-seat-online edge case at the concrete
WAITING state: seat 1 is credited as winner and seat 0 is deleted from
the room and forcibly disconnected. -/
theorem C10_timer_winner_choice_witness :
    isExn (timedOut envT c10ws) = false ∧
      (outState (timedOut envT c10ws)).stage = MatchStage.FINISHED ∧
      postWins ((outState (timedOut envT c10ws)).eff.drop c10ws.eff.length) =
        [(if false then uA else uB).id] ∧
      Effect.sioDisconnect (if false then uB else uA).sid ∈
        (outState (timedOut envT c10ws)).eff.drop c10ws.eff.length ∧
      Effect.deleteRoomUser (if false then uB else uA).id c10ws.match_room_id ∈
        (outState (timedOut envT c10ws)).eff.drop c10ws.eff.length :=
  C10_timer_winner_choice envT c10ws uA uB false false (by decide) (by decide)
    (by decide) (by decide)

/-- C6: a connect for a decided, not-yet-online seat arriving at stage
FINISHED runs __set_win for that seat - one statistics report crediting
exactly that competitor, with scores zero-zero when no runner was ever
started - marks the seat online, leaves the stage FINISHED, and a repeat
connect for the same seat is a benign no-op returning success with no
further state change or effect. -/
theorem C6_late_connect_auto_win :
    (∀ (env env2 : Env) (u u0 u1 : MatchUser) (b : Bool) (s : MatchState),
      s.stage = MatchStage.FINISHED → s.users = [u0, u1] → s.online = [false, b] →
      u.id = u0.id →
      isExn (userConnected env u s) = false ∧
        postWins ((outState (userConnected env u s)).eff.drop s.eff.length) = [u.id] ∧
        (s.match_process = none →
          Effect.emitGameOver PADDLE1 0 0 s.room_name ∈
            (outState (userConnected env u s)).eff.drop s.eff.length) ∧
        (outState (userConnected env u s)).online = [true, b] ∧
        (outState (userConnected env u s)).stage = MatchStage.FINISHED ∧
        userConnected env2 u (outState (userConnected env u s)) =
          PyRes.ok (outState (userConnected env u s)) true) ∧
    (∀ (env env2 : Env) (u u0 u1 : MatchUser) (b : Bool) (s : MatchState),
      s.stage = MatchStage.FINISHED → s.users = [u0, u1] → s.online = [b, false] →
      u.id ≠ u0.id → u.id = u1.id →
      isExn (userConnected env u s) = false ∧
        postWins ((outState (userConnected env u s)).eff.drop s.eff.length) = [u.id] ∧
        (s.match_process = none →
          Effect.emitGameOver PADDLE2 0 0 s.room_name ∈
            (outState (userConnected env u s)).eff.drop s.eff.length) ∧
        (outState (userConnected env u s)).online = [b, true] ∧
        (outState (userConnected env u s)).stage = MatchStage.FINISHED ∧
        userConnected env2 u (outState (userConnected env u s)) =
          PyRes.ok (outState (userConnected env u s)) true) := by
  constructor
  · intro env env2 u u0 u1 b s hst hus hon hid
    obtain ⟨mid, rn, mri, mrn, wm, sa, ai, st, us, ol, mp, ts, ef⟩ := s
    dsimp only at hst hus hon
    subst hst hus hon
    rcases wm with _ | nm <;> rcases mp with _ | sc <;> rcases sa with _ | t0 <;>
      cases hro : env.respOk <;>
      simp [userConnected, userConnectedPre, userConnectedLocked, getUserIdx,
        getUserIdxGo, setWin, pyIndex, addEff, outState, isExn, postWins, hro,
        List.drop_left, hid]
  · intro env env2 u u0 u1 b s hst hus hon hne hid
    obtain ⟨mid, rn, mri, mrn, wm, sa, ai, st, us, ol, mp, ts, ef⟩ := s
    dsimp only at hst hus hon
    subst hst hus hon
    have hne2 : u0.id ≠ u1.id := fun hcontra => hne (hid.trans hcontra.symm)
    rcases wm with _ | nm <;> rcases mp with _ | sc <;> rcases sa with _ | t0 <;>
      cases hro : env.respOk <;>
      simp [userConnected, userConnectedPre, userConnectedLocked, getUserIdx,
        getUserIdxGo, setWin, pyIndex, addEff, outState, isExn, postWins, hro,
        List.drop_left, hid, hne2]

/-- C6 witness: competitor A connects to the concrete FINISHED session in
which nobody ever connected and no runner ever ran: one report crediting
A with zero-zero scores, and the repeated connect is a no-op. -/
theorem C6_late_connect_auto_win_witness :
    isExn (userConnected envT uA c6ws) = false ∧
      postWins ((outState (userConnected envT uA c6ws)).eff.drop c6ws.eff.length) =
        [uA.id] ∧
      (c6ws.match_process = none →
        Effect.emitGameOver PADDLE1 0 0 c6ws.room_name ∈
          (outState (userConnected envT uA c6ws)).eff.drop c6ws.eff.length) ∧
      (outState (userConnected envT uA c6ws)).online = [true, false] ∧
      (outState (userConnected envT uA c6ws)).stage = MatchStage.FINISHED ∧
      userConnected envT uA (outState (userConnected envT uA c6ws)) =
        PyRes.ok (outState (userConnected envT uA c6ws)) true :=
  C6_late_connect_auto_win.1 envT envT uA uA uB false c6ws (by decide) (by decide)
    (by decide) (by decide)

/-- C8: a failed statistics response inside __set_win is logged and
nothing else differs from the healthy run - the same state is produced
(trace aside), the stage still reaches FINISHED, the game-over emission
and the bracket advancement or room deletion still happen, and nothing
already committed is rolled back. -/
theorem C8_report_failure_nonfatal :
    ∀ (now w : Int) (u0 u1 : MatchUser) (s : MatchState), s.users = [u0, u1] →
      w = 0 ∨ w = 1 →
      isExn (setWin ⟨now, false⟩ w s) = false ∧
        isExn (setWin ⟨now, true⟩ w s) = false ∧
        (outState (setWin ⟨now, false⟩ w s)).stage = MatchStage.FINISHED ∧
        Effect.logRespError ∈ (outState (setWin ⟨now, false⟩ w s)).eff.drop s.eff.length ∧
        List.filter notLog (outState (setWin ⟨now, false⟩ w s)).eff =
          List.filter notLog (outState (setWin ⟨now, true⟩ w s)).eff ∧
        { outState (setWin ⟨now, false⟩ w s) with eff := [] } =
          { outState (setWin ⟨now, true⟩ w s) with eff := [] } ∧
        Effect.emitGameOver (if w = 0 then PADDLE1 else PADDLE2)
            (match s.match_process with | some sc => sc.1 | none => 0)
            (match s.match_process with | some sc => sc.2 | none => 0) s.room_name ∈
          (outState (setWin ⟨now, false⟩ w s)).eff.drop s.eff.length ∧
        (∀ nm : Int, s.winner_match = some nm →
          Effect.createNextMatchUser (if w = 0 then u0 else u1).id nm ∈
            (outState (setWin ⟨now, false⟩ w s)).eff.drop s.eff.length) ∧
        (s.winner_match = none →
          Effect.deleteRoomByName s.match_room_room_name ∈
            (outState (setWin ⟨now, false⟩ w s)).eff.drop s.eff.length) := by
  intro now w u0 u1 s hus hw
  obtain ⟨mid, rn, mri, mrn, wm, sa, ai, st, us, ol, mp, ts, ef⟩ := s
  dsimp only at hus
  subst hus
  rcases hw with rfl | rfl <;>
    rcases wm with _ | nm <;> rcases mp with _ | sc <;> rcases sa with _ | t0 <;>
    simp [setWin, pyIndex, addEff, outState, isExn, notLog, List.drop_left]

/-- C8 witness: the report-failure run at the concrete two-seat session,
seat 0 winning. -/
theorem C8_report_failure_nonfatal_witness :
    isExn (setWin ⟨5, false⟩ 0 c8ws) = false ∧
      isExn (setWin ⟨5, true⟩ 0 c8ws) = false ∧
      (outState (setWin ⟨5, false⟩ 0 c8ws)).stage = MatchStage.FINISHED ∧
      Effect.logRespError ∈ (outState (setWin ⟨5, false⟩ 0 c8ws)).eff.drop c8ws.eff.length ∧
      List.filter notLog (outState (setWin ⟨5, false⟩ 0 c8ws)).eff =
        List.filter notLog (outState (setWin ⟨5, true⟩ 0 c8ws)).eff ∧
      { outState (setWin ⟨5, false⟩ 0 c8ws) with eff := [] } =
        { outState (setWin ⟨5, true⟩ 0 c8ws) with eff := [] } ∧
      Effect.emitGameOver (if (0 : Int) = 0 then PADDLE1 else PADDLE2)
          (match c8ws.match_process with | some sc => sc.1 | none => 0)
          (match c8ws.match_process with | some sc => sc.2 | none => 0) c8ws.room_name ∈
        (outState (setWin ⟨5, false⟩ 0 c8ws)).eff.drop c8ws.eff.length ∧
      (∀ nm : Int, c8ws.winner_match = some nm →
        Effect.createNextMatchUser (if (0 : Int) = 0 then uA else uB).id nm ∈
          (outState (setWin ⟨5, false⟩ 0 c8ws)).eff.drop c8ws.eff.length) ∧
      (c8ws.winner_match = none →
        Effect.deleteRoomByName c8ws.match_room_room_name ∈
          (outState (setWin ⟨5, false⟩ 0 c8ws)).eff.drop c8ws.eff.length) :=
  C8_report_failure_nonfatal 5 0 uA uB c8ws (by decide) (Or.inl rfl)
